import Mathlib

/-!
Shallow embedding of the server-creation command of `scaleway-cli`
(`internal/namespaces/instance/v1/command_server_create.go`).

External collaborators (the Scaleway SDK client, `go-humanize`,
`validation.IsUUID`, `net.ParseIP`, `strconv.Itoa`) are modelled as explicit
function parameters or as small executable definitions; the control flow and
the error messages of the command itself are translated statement by
statement from the Go source.

Machine sizes (`scw.Size`, a `uint64`) are modelled as `Nat` with an explicit
`% 2 ^ 64` wherever the Go code adds two sizes.
-/

namespace Scw

/-- `2 ^ 64`: the modulus of Go's unsigned 64-bit arithmetic (`scw.Size` is a
`uint64`). -/
def U64 : Nat := 2 ^ 64

/-- `instance.VolumeTypeLSSD`: the local-SSD storage class (a Go string enum). -/
def volumeTypeLSSD : String := "l_ssd"

/-- `instance.VolumeTypeBSSD`: the block-SSD storage class (a Go string enum). -/
def volumeTypeBSSD : String := "b_ssd"

/-- The owning server recorded on an attached volume (`instance.ServerSummary`:
only the ID is read by this command). -/
structure ServerSummary where
  id : String
deriving DecidableEq, Repr

/-- An `instance.Volume` as returned by `GetVolume`: the fields this command
reads. `server = none` models a nil `Volume.Server` pointer. -/
structure Volume where
  id : String
  volumeType : String
  size : Nat
  server : Option ServerSummary
deriving DecidableEq, Repr

/-- An `instance.VolumeTemplate`. Go zero values ("" and 0) are the defaults,
so a record literal that sets only some fields models a Go struct literal that
sets only those fields. -/
structure VolumeTemplate where
  id : String := ""
  name : String := ""
  size : Nat := 0
  volumeType : String := ""
  organization : String := ""
deriving DecidableEq, Repr

/-- A `core.CliError` (error plus user-facing hint). -/
structure CliError where
  err : String
  details : String := ""
  hint : String := ""
deriving DecidableEq, Repr

/-- An error returned by the command: either a plain `fmt.Errorf` message or a
structured `core.CliError`. -/
inductive CreateErr
  | msg (s : String)
  | cli (e : CliError)
deriving DecidableEq, Repr

/-- The result of a fallible step: Go's `(value, error)` pair. -/
inductive Res (α : Type) where
  | ok (a : α)
  | error (e : CreateErr)
deriving DecidableEq, Repr

/-- `strings.Split(s, ":")` over the character list: splitting the empty list
yields one empty field, and every `':'` starts a new field. -/
def splitColonChars : List Char → List (List Char)
  | [] => [[]]
  | c :: rest =>
    let r := splitColonChars rest
    if c = ':' then [] :: r
    else
      match r with
      | [] => [[c]]
      | h :: t => (c :: h) :: t

/-- `strings.Split(s, ":")`. -/
def goSplitColon (s : String) : List String :=
  (splitColonChars s.data).map String.mk

/-- `strings.TrimSpace`: drop leading and trailing whitespace. -/
def goTrimSpace (s : String) : String :=
  String.mk (((s.data.dropWhile Char.isWhitespace).reverse.dropWhile
    Char.isWhitespace).reverse)

/-- `buildVolumeTemplateFromUUID`: look the volume up (`getVolume` models the
`GetVolume` API call, `none` standing for a lookup error), refuse a volume that
is already attached, and otherwise keep `{ID, VolumeType, Size}`.  The
`Organization` field of the returned template is the Go zero value `""`. -/
def buildVolumeTemplateFromUUID (getVolume : String → Option Volume)
    (volumeUUID : String) : Res VolumeTemplate :=
  match getVolume volumeUUID with
  | none => .error (.msg ("Volume " ++ volumeUUID ++ " does not exist."))
  | some vol =>
    match vol.server with
    | some srv =>
      .error (.msg ("Volume " ++ vol.id ++ " is already attached to " ++
        srv.id ++ " server."))
    | none => .ok { id := vol.id, volumeType := vol.volumeType, size := vol.size }

/-- The `Hint` of the invalid-volume-format `core.CliError`. -/
def volumeFormatHint : String :=
  "You must provide either a UUID (\"11111111-1111-1111-1111-111111111111\"), a local volume size (\"local:100G\" or \"l:100G\") or a block volume size (\"block:100G\" or \"b:100G\")."

/-- `buildVolumeTemplate`: parse one volume descriptor string.  `isUUID`
models `validation.IsUUID` and `parseBytes` models `humanize.ParseBytes`
(`none` standing for a parse error); both are external collaborators. -/
def buildVolumeTemplate (isUUID : String → Bool) (parseBytes : String → Option Nat)
    (getVolume : String → Option Volume) (orgID flagV : String) :
    Res VolumeTemplate :=
  match goSplitColon (goTrimSpace flagV) with
  | [p0, p1] =>
    match
      (if p0 = "l" ∨ p0 = "local" then some volumeTypeLSSD
       else if p0 = "b" ∨ p0 = "block" then some volumeTypeBSSD
       else none) with
    | none => .error (.msg ("Invalid volume type " ++ p0 ++ " in " ++ flagV ++ " volume."))
    | some vt =>
      match parseBytes p1 with
      | none => .error (.msg ("Invalid size format " ++ p1 ++ " in " ++ flagV ++ " volume."))
      | some size => .ok { volumeType := vt, size := size, organization := orgID }
  | [p0] =>
    if isUUID p0 then buildVolumeTemplateFromUUID getVolume p0
    else
      .error (.cli
        { err := "invalid volume format \'" ++ flagV ++ "\'",
          hint := volumeFormatHint })
  | _ =>
    .error (.cli
      { err := "invalid volume format \'" ++ flagV ++ "\'",
        hint := volumeFormatHint })

/-- `strconv.Itoa`, digit by digit, with fuel for structural recursion (the
fuel `n + 1` always suffices since `n / 10 < n` for `n ≥ 10`). -/
def itoaCore : Nat → Nat → List Char
  | 0, _ => []
  | fuel + 1, n =>
    if n < 10 then [Nat.digitChar n]
    else itoaCore fuel (n / 10) ++ [Nat.digitChar (n % 10)]

/-- `strconv.Itoa`: decimal representation of a natural number. -/
def itoa (n : Nat) : String :=
  String.mk (itoaCore (n + 1) n)

/-- The body of the `for i, v := range additionalVolumes` loop of
`buildVolumes`: name the template `serverName + "-" + index` and, when it
references an existing volume, strip every field except `{ID, Name}`. -/
def additionalVolumeEntry (serverName : String) (idx : Nat) (t : VolumeTemplate) :
    VolumeTemplate :=
  let t1 : VolumeTemplate := { t with name := serverName ++ "-" ++ itoa idx }
  if t1.id ≠ "" then { id := t1.id, name := t1.name } else t1

/-- The `for i, v := range additionalVolumes` loop of `buildVolumes`, started
at 0-based position `k`: each descriptor is parsed with `bvt`
(`buildVolumeTemplate` with its collaborators fixed) and stored under the key
`strconv.Itoa(i + 1)`. -/
def buildAdditionalVolumes (bvt : String → Res VolumeTemplate) (serverName : String) :
    List String → Nat → Res (List (String × VolumeTemplate))
  | [], _ => .ok []
  | v :: rest, k =>
    match bvt v with
    | .error e => .error e
    | .ok t =>
      match buildAdditionalVolumes bvt serverName rest (k + 1) with
      | .error e => .error e
      | .ok l => .ok ((itoa (k + 1), additionalVolumeEntry serverName (k + 1) t) :: l)

/-- `buildVolumes`: the initial volume template map, as an association list in
key order — the root descriptor (when present) parsed, its organization
cleared and stored at `"0"`, then each additional descriptor at
`strconv.Itoa(i + 1)`. -/
def buildVolumes (isUUID : String → Bool) (parseBytes : String → Option Nat)
    (getVolume : String → Option Volume) (organizationID serverName rootVolume : String)
    (additionalVolumes : List String) : Res (List (String × VolumeTemplate)) :=
  let bvt := buildVolumeTemplate isUUID parseBytes getVolume organizationID
  match
    (if rootVolume ≠ "" then
      match bvt rootVolume with
      | .error e => .error e
      | .ok t => .ok [("0", { t with organization := "" })]
     else .ok ([] : List (String × VolumeTemplate)) : Res (List (String × VolumeTemplate))) with
  | .error e => .error e
  | .ok rootPart =>
    match buildAdditionalVolumes bvt serverName additionalVolumes 0 with
    | .error e => .error e
    | .ok rest => .ok (rootPart ++ rest)

/-- The body of the loop of `sanitizeVolumeMap`: reset the name from the key,
then strip a UUID-referencing template to `{ID, Name}` and a non-zero-size
root template to `{Size}`. -/
def sanitizeVolumeTemplate (serverName index : String) (v : VolumeTemplate) :
    VolumeTemplate :=
  let v1 : VolumeTemplate := { v with name := serverName ++ "-" ++ index }
  if v1.id ≠ "" then { id := v1.id, name := v1.name }
  else if index = "0" ∧ v1.size ≠ 0 then { size := v1.size }
  else v1

/-- `sanitizeVolumeMap`: remove the extra data the API rejects, entry by
entry. -/
def sanitizeVolumeMap (serverName : String)
    (volumes : List (String × VolumeTemplate)) : List (String × VolumeTemplate) :=
  volumes.map fun p => (p.1, sanitizeVolumeTemplate serverName p.1 p.2)

/-- A per-commercial-type `instance.VolumeConstraint` `{MinSize, MaxSize}`. -/
structure VolumesConstraint where
  minSize : Nat
  maxSize : Nat
deriving DecidableEq, Repr

/-- The first loop of `validateLocalVolumeSizes`: the sum of the sizes of the
local (`l_ssd`) templates, in `uint64` arithmetic. -/
def localVolumeTotalSize (volumes : List (String × VolumeTemplate)) : Nat :=
  volumes.foldl
    (fun acc p => if p.2.volumeType = volumeTypeLSSD then (acc + p.2.size) % U64 else acc) 0

/-- `validateLocalVolumeSizes`.  `serverTypes` models the
`ListServersTypes` call: `none` is a failed listing (warn and skip), and the
inner function maps a commercial type to its constraint when listed.
`bytesFmt` models `humanize.Bytes`. -/
def validateLocalVolumeSizes (serverTypes : Option (String → Option VolumesConstraint))
    (bytesFmt : Nat → String) (volumes : List (String × VolumeTemplate))
    (commercialType : String) : Res Unit :=
  let localTotal := localVolumeTotalSize volumes
  match serverTypes with
  | none => .ok ()
  | some types =>
    match types commercialType with
    | none => .ok ()
    | some c =>
      let localTotal :=
        if (volumes.lookup "0").isNone then (localTotal + c.minSize) % U64 else localTotal
      if localTotal < c.minSize ∨ localTotal > c.maxSize then
        if c.minSize = c.maxSize then
          .error (.msg (commercialType ++ " total local volume size must be equal to " ++
            bytesFmt c.minSize ++ "."))
        else
          .error (.msg (commercialType ++ " total local volume size must be between " ++
            bytesFmt c.minSize ++ " and " ++ bytesFmt c.maxSize ++ "."))
      else .ok ()

/-- The fields of an `instance.Image` this command reads
(`Image.RootVolume.Size`). -/
structure Image where
  rootVolumeSize : Nat
deriving DecidableEq, Repr

/-- The outcome of `validateRootVolume`: success, an error, or the nil-pointer
dereference the Go code runs into when `GetImage` fails (it logs
"skip root volume size validation" but then reads
`res.Image.RootVolume.Size` from the nil response `res`). -/
inductive RootVolumeCheck
  | ok
  | err (e : String)
  | nilDeref
deriving DecidableEq, Repr

/-- The existing-volume-as-root error message of `validateRootVolume`. -/
def rootVolumeExistingMsg : String :=
  "You cannot use an existing volume as a root volume. You must create an image of this volume and use its ID in the \'image\' argument."

/-- `validateRootVolume`.  `getImage` models the `GetImage` call (`none` is a
failed lookup).  When the lookup fails the Go code logs two warnings and then
dereferences the nil response, modelled by `.nilDeref`. -/
def validateRootVolume (getImage : Option Image) (bytesFmt : Nat → String)
    (rootVolume : Option VolumeTemplate) : RootVolumeCheck :=
  match rootVolume with
  | none => .ok
  | some rv =>
    if rv.volumeType ≠ volumeTypeLSSD then .err "First volume must be local."
    else if rv.id ≠ "" then .err rootVolumeExistingMsg
    else
      match getImage with
      | none => .nilDeref
      | some img =>
        if rv.size < img.rootVolumeSize then
          .err ("First volume size must be at least " ++ bytesFmt img.rootVolumeSize ++
            " for this image.")
        else .ok

/-- What the `ip` argument switch of `instanceServerCreateRun` decides:
create a new IP later, attach an existing IP ID, require a dynamic IP,
request no public IP, or fail. -/
inductive IPOutcome
  | createNew
  | attach (id : String)
  | dynamic
  | noPublicIP
  | err (e : String)
deriving DecidableEq, Repr

/-- The invalid-`ip`-argument error message. -/
def invalidIPMsg (ip : String) : String :=
  "Invalid IP \"" ++ ip ++ "\", should be either \'new\', \'dynamic\', \'none\', an IP address ID or a reserved flexible IP address."

/-- The `ip` argument switch of `instanceServerCreateRun`.  `isUUID` models
`validation.IsUUID`, `parsesAsIP` models `net.ParseIP(s) != nil`, and `getIP`
models the `GetIP` reverse lookup (`none` is a failed lookup, `some id` the
found IP's ID). -/
def resolveIPArgument (isUUID : String → Bool) (parsesAsIP : String → Bool)
    (getIP : String → Option String) (ip : String) : IPOutcome :=
  if ip = "" ∨ ip = "new" then .createNew
  else if isUUID ip then .attach ip
  else if parsesAsIP ip then
    match getIP ip with
    | none => .err (ip ++ " does not belongs to you.")
    | some id => .attach id
  else if ip = "dynamic" then .dynamic
  else if ip = "none" then .noPublicIP
  else .err (invalidIPMsg ip)

/-- The server record returned by `CreateServer` (only the ID is read). -/
structure Server where
  id : String
deriving DecidableEq, Repr

/-- A remote call made during STEP 2 of `instanceServerCreateRun`, with the
outcome of the best-effort calls recorded (their failures are only logged). -/
inductive Effect
  | createIPCall
  | createServerCall
  | deleteIPCall (ip : String) (result : Option String)
  | powerOnCall (serverID : String) (result : Option String)
deriving DecidableEq, Repr

/-- A remote call's outcome as the Go SDK reports it: a value, or a plain
error message. -/
inductive ApiResult (α : Type) where
  | ok (a : α)
  | error (e : String)
deriving DecidableEq, Repr

/-- The remote API of STEP 2: `CreateIP` (created IP ID or error message),
`CreateServer`, best-effort `DeleteIP` and `ServerAction` power-on (`none`
means success, `some e` a failure that is only logged). -/
structure CreateApi where
  createIP : ApiResult String
  createServer : ApiResult Server
  deleteIP : String → Option String
  powerOn : String → Option String

/-- STEP 2 of `instanceServerCreateRun`: optionally create an IP, create the
server (deleting the created IP — best effort — when server creation fails),
optionally power on (best effort).  Returns the command's result together
with the list of remote calls made. -/
def createPhase (api : CreateApi) (needIPCreation start : Bool)
    (publicIP0 : Option String) : Res Server × List Effect :=
  match
    (if needIPCreation then
      match api.createIP with
      | .error e => (.error (.msg ("Error while creating your public IP: " ++ e ++ ".")),
          [Effect.createIPCall])
      | .ok ipID => (.ok (some ipID), [Effect.createIPCall])
     else (.ok publicIP0, ([] : List Effect)) : Res (Option String) × List Effect) with
  | (.error e, tr) => (.error e, tr)
  | (.ok publicIP, tr) =>
    match api.createServer with
    | .error e =>
      let tr1 := tr ++ [Effect.createServerCall]
      let tr2 :=
        match needIPCreation, publicIP with
        | true, some ip => tr1 ++ [Effect.deleteIPCall ip (api.deleteIP ip)]
        | _, _ => tr1
      (.error (.msg ("Cannot create the server: " ++ e ++ ".")), tr2)
    | .ok srv =>
      let tr1 := tr ++ [Effect.createServerCall]
      if start then (.ok srv, tr1 ++ [Effect.powerOnCall srv.id (api.powerOn srv.id)])
      else (.ok srv, tr1)

/-- The delete-IP calls of a STEP 2 trace, with each call's target and
outcome. -/
def deleteIPCalls : List Effect → List (String × Option String)
  | [] => []
  | .deleteIPCall ip r :: rest => (ip, r) :: deleteIPCalls rest
  | .createIPCall :: rest => deleteIPCalls rest
  | .createServerCall :: rest => deleteIPCalls rest
  | .powerOnCall _ _ :: rest => deleteIPCalls rest

/-- A marketplace image (only the label is read by the autocompleter). -/
structure MarketplaceImage where
  label : String
deriving DecidableEq, Repr

/-- `strings.ToLower` (ASCII, which covers image labels and completions). -/
def goToLower (s : String) : String :=
  String.mk (s.data.map Char.toLower)

/-- `strings.Replace(s, "-", "_", -1)`. -/
def goReplaceDashWithUnderscore (s : String) : String :=
  String.mk (s.data.map fun c => if c = '-' then '_' else c)

/-- `instanceServerCreateImageAutoCompleteFunc`.  `listImages` models the
paged `ListImages` call (`none` is a failed listing).  The loop appends every
label the transformed completion word is a (case-sensitive) prefix of. -/
def instanceServerCreateImageAutoCompleteFunc
    (listImages : Option (List MarketplaceImage)) (word : String) : List String :=
  match listImages with
  | none => []
  | some images =>
    let w := goToLower (goReplaceDashWithUnderscore word)
    images.foldl (fun acc img => if w.data.isPrefixOf img.label.data then acc ++ [img.label] else acc) []

/-- The claim's reading of the autocompletion filter, written from the spec's
words for comparison with `instanceServerCreateImageAutoCompleteFunc`: the
transformed completion word must match the label case-insensitively. -/
def imageAutoCompleteCaseInsensitive
    (listImages : Option (List MarketplaceImage)) (word : String) : List String :=
  match listImages with
  | none => []
  | some images =>
    let w := goToLower (goReplaceDashWithUnderscore word)
    images.foldl
      (fun acc img => if w.data.isPrefixOf (goToLower img.label).data then acc ++ [img.label] else acc) []

/-- The local total after the default-root adjustment of
`validateLocalVolumeSizes`: when no template occupies key `"0"`, the
constraint's minimum size is added (in `uint64` arithmetic) before the range
comparison. -/
def adjustedLocalTotal (volumes : List (String × VolumeTemplate))
    (c : VolumesConstraint) : Nat :=
  if (volumes.lookup "0").isNone then (localVolumeTotalSize volumes + c.minSize) % U64
  else localVolumeTotalSize volumes

/-!
Concrete collaborator instances, used by the witnesses below: a fixed UUID,
a UUID test and byte-size parser defined on the few inputs the witnesses use,
a volume catalogue, and a remote API whose `CreateServer` fails.
-/

/-- A fixed volume UUID. -/
def uuidW : String := "11111111-1111-1111-1111-111111111111"

/-- A concrete `validation.IsUUID`: recognises exactly `uuidW`. -/
def isUUIDW : String → Bool := fun s => s = uuidW

/-- A concrete `humanize.ParseBytes`: defined on the sizes the witnesses use. -/
def parseBytesW : String → Option Nat := fun s =>
  if s = "20GB" then some 20000000000
  else if s = "30GB" then some 30000000000
  else none

/-- A concrete volume catalogue: `uuidW` is an unattached block volume. -/
def getVolumeW : String → Option Volume := fun s =>
  if s = uuidW then
    some { id := uuidW, volumeType := volumeTypeBSSD, size := 10000000000, server := none }
  else none

/-- A concrete remote API for STEP 2: IP creation succeeds, server creation
fails, and the compensating IP deletion itself fails. -/
def apiW : CreateApi :=
  { createIP := .ok "ip-1", createServer := .error "boom",
    deleteIP := fun _ => some "cannot delete", powerOn := fun _ => none }

/-- A new local root-volume template of 20 GB, as `buildVolumes` stores it at
key `"0"`. -/
def c2RootVolume : VolumeTemplate :=
  { volumeType := volumeTypeLSSD, size := 20000000000 }

/-- A second fixed volume UUID. -/
def uuid2W : String := "22222222-2222-2222-2222-222222222222"

/-- A third fixed volume UUID, absent from every catalogue below. -/
def uuid3W : String := "33333333-3333-3333-3333-333333333333"

/-- A volume catalogue with an unattached volume at `uuidW` and a volume at
`uuid2W` that is attached to server `srv-9`. -/
def getVolumeC6 : String → Option Volume := fun s =>
  if s = uuidW then
    some { id := uuidW, volumeType := volumeTypeBSSD, size := 10000000000, server := none }
  else if s = uuid2W then
    some { id := uuid2W, volumeType := volumeTypeLSSD, size := 5000000000,
           server := some { id := "srv-9" } }
  else none

/-- A concrete `net.ParseIP(s) != nil`: recognises the two addresses the
witnesses use. -/
def parsesAsIPW : String → Bool := fun s => s == "1.2.3.4" || s == "5.6.7.8"

/-- A concrete `GetIP` reverse lookup: owns `5.6.7.8` (ID `ip-42`), fails on
everything else. -/
def getIPW : String → Option String := fun s =>
  if s = "5.6.7.8" then some "ip-42" else none

/-- A volume map with no entry at key `"0"` and one local volume of the
largest `uint64` size. -/
def c10Volumes : List (String × VolumeTemplate) :=
  [("1", { volumeType := volumeTypeLSSD, size := U64 - 1, name := "srv-1" })]

/-- A constraint whose minimum the wrapped-around total of `c10Volumes` falls
below. -/
def c10Constraint : VolumesConstraint := { minSize := 2, maxSize := 1000000000000 }

/-- A server-type listing mapping every commercial type to `c10Constraint`. -/
def c10Types : String → Option VolumesConstraint := fun _ => some c10Constraint

end Scw

namespace Scw

/-- C1: in every run where IP creation ran and succeeded and `CreateServer`
then fails, exactly one delete-IP call is attempted and it targets the
created IP; the delete's own outcome (here recorded in the trace, only
logged by the code) does not change the returned error, which is the
server-creation error. -/
theorem createPhase_compensation (api : CreateApi) (start : Bool) (ipID e : String)
    (hip : api.createIP = .ok ipID) (hsrv : api.createServer = .error e) :
    (createPhase api true start none).1 =
      .error (.msg ("Cannot create the server: " ++ e ++ ".")) ∧
    deleteIPCalls (createPhase api true start none).2 =
      [(ipID, api.deleteIP ipID)] := by
  simp [createPhase, hip, hsrv, deleteIPCalls]

/-- Witness for C1: a concrete API where `CreateIP` succeeds, `CreateServer`
fails and the compensating delete itself fails. -/
theorem createPhase_compensation_witness :
    (createPhase apiW true false none).1 =
      .error (.msg ("Cannot create the server: " ++ "boom" ++ ".")) ∧
    deleteIPCalls (createPhase apiW true false none).2 =
      [("ip-1", apiW.deleteIP "ip-1")] :=
  createPhase_compensation apiW false "ip-1" "boom" rfl rfl

/-- C2 (code bug): when the `GetImage` lookup fails while a new local root
volume is being validated, `validateRootVolume` does not skip the size check
as its own log message announces — it dereferences the nil response,
modelled by `.nilDeref`. -/
theorem validateRootVolume_getImage_failure_nilDeref :
    validateRootVolume none itoa (some c2RootVolume) = .nilDeref := by decide

/-- C3: a present non-local root template fails with the first-volume-must-be-
local error; a local root template referencing an existing volume fails with
the cannot-use-existing error; a new local root smaller than the image's root
volume size fails with the size-must-be-at-least error; an absent root
template passes. -/
theorem validateRootVolume_outcomes (getImage : Option Image) (bytesFmt : Nat → String)
    (img : Image) (rv1 rv2 rv3 : VolumeTemplate)
    (h1 : rv1.volumeType ≠ volumeTypeLSSD)
    (h2a : rv2.volumeType = volumeTypeLSSD) (h2b : rv2.id ≠ "")
    (h3a : rv3.volumeType = volumeTypeLSSD) (h3b : rv3.id = "")
    (h3c : rv3.size < img.rootVolumeSize) :
    validateRootVolume getImage bytesFmt none = .ok ∧
    validateRootVolume getImage bytesFmt (some rv1) = .err "First volume must be local." ∧
    validateRootVolume getImage bytesFmt (some rv2) = .err rootVolumeExistingMsg ∧
    validateRootVolume (some img) bytesFmt (some rv3) =
      .err ("First volume size must be at least " ++ bytesFmt img.rootVolumeSize ++
        " for this image.") := by
  refine ⟨rfl, ?_, ?_, ?_⟩ <;>
    simp [validateRootVolume, h1, h2a, h2b, h3a, h3b, h3c]

/-- Witness for C3 at concrete templates and a concrete image. -/
theorem validateRootVolume_outcomes_witness :
    validateRootVolume none itoa none = .ok ∧
    validateRootVolume none itoa (some { volumeType := volumeTypeBSSD, size := 20000000000 }) =
      .err "First volume must be local." ∧
    validateRootVolume none itoa (some { volumeType := volumeTypeLSSD, id := uuidW }) =
      .err rootVolumeExistingMsg ∧
    validateRootVolume (some { rootVolumeSize := 10000000000 }) itoa
      (some { volumeType := volumeTypeLSSD, size := 5000000000 }) =
      .err ("First volume size must be at least " ++ itoa 10000000000 ++
        " for this image.") :=
  validateRootVolume_outcomes none itoa { rootVolumeSize := 10000000000 }
    { volumeType := volumeTypeBSSD, size := 20000000000 }
    { volumeType := volumeTypeLSSD, id := uuidW }
    { volumeType := volumeTypeLSSD, size := 5000000000 }
    (by decide) (by decide) (by decide) (by decide) (by decide) (by decide)

/-- The local-size fold of `validateLocalVolumeSizes`, started from any
accumulator below `2 ^ 64`, computes the sum of the sizes of exactly the
local-class templates, modulo `2 ^ 64`. -/
theorem localVolumeTotalSize_foldl (volumes : List (String × VolumeTemplate)) (a : Nat)
    (ha : a < U64) :
    volumes.foldl
      (fun acc p => if p.2.volumeType = volumeTypeLSSD then (acc + p.2.size) % U64 else acc) a =
    (a + ((volumes.filter fun p => p.2.volumeType = volumeTypeLSSD).map
      fun p => p.2.size).sum) % U64 := by
  induction volumes generalizing a with
  | nil => simpa using (Nat.mod_eq_of_lt ha).symm
  | cons x xs ih =>
    have hU : 0 < U64 := by norm_num [U64]
    simp only [List.foldl_cons]
    by_cases h : x.2.volumeType = volumeTypeLSSD
    · rw [if_pos h, ih ((a + x.2.size) % U64) (Nat.mod_lt _ hU)]
      rw [Nat.mod_add_mod]
      simp [List.filter_cons, h, Nat.add_assoc]
    · rw [if_neg h, ih a ha]
      simp [List.filter_cons, h]

/-- `localVolumeTotalSize` is the sum of the sizes of exactly the local-class
templates, modulo `2 ^ 64`. -/
theorem localVolumeTotalSize_eq_sum (volumes : List (String × VolumeTemplate)) :
    localVolumeTotalSize volumes =
    ((volumes.filter fun p => p.2.volumeType = volumeTypeLSSD).map
      fun p => p.2.size).sum % U64 := by
  have := localVolumeTotalSize_foldl volumes 0 (by norm_num [U64])
  simpa [localVolumeTotalSize] using this

/-- When the commercial type is listed, `validateLocalVolumeSizes` compares
the adjusted local total against the constraint and fails with the collapsed
or the range message accordingly. -/
theorem validateLocalVolumeSizes_eq (types : String → Option VolumesConstraint)
    (bytesFmt : Nat → String) (volumes : List (String × VolumeTemplate)) (ct : String)
    (c : VolumesConstraint) (h : types ct = some c) :
    validateLocalVolumeSizes (some types) bytesFmt volumes ct =
      (if adjustedLocalTotal volumes c < c.minSize ∨ adjustedLocalTotal volumes c > c.maxSize then
        (if c.minSize = c.maxSize then
          .error (.msg (ct ++ " total local volume size must be equal to " ++
            bytesFmt c.minSize ++ "."))
         else
          .error (.msg (ct ++ " total local volume size must be between " ++
            bytesFmt c.minSize ++ " and " ++ bytesFmt c.maxSize ++ ".")))
       else .ok ()) := by
  simp only [validateLocalVolumeSizes, adjustedLocalTotal, h]

/-- C4: `validateLocalVolumeSizes` sums the sizes of exactly the local
templates, adds the minimum when key `"0"` is unoccupied (inside
`adjustedLocalTotal`), fails with the must-be-equal message when the total is
out of range and the minimum equals the maximum, fails with the must-be-between
message when they differ, passes on every total inside the range, and passes
(skip with a warning) on a failed listing or an unknown commercial type. -/
theorem validateLocalVolumeSizes_outcomes
    (volumes : List (String × VolumeTemplate)) (ct : String) (bytesFmt : Nat → String)
    (types1 types2 types3 types4 : String → Option VolumesConstraint)
    (c2 c3 c4 : VolumesConstraint)
    (h1 : types1 ct = none)
    (h2 : types2 ct = some c2) (h2a : c2.minSize = c2.maxSize)
    (h2b : adjustedLocalTotal volumes c2 < c2.minSize ∨
      adjustedLocalTotal volumes c2 > c2.maxSize)
    (h3 : types3 ct = some c3) (h3a : c3.minSize ≠ c3.maxSize)
    (h3b : adjustedLocalTotal volumes c3 < c3.minSize ∨
      adjustedLocalTotal volumes c3 > c3.maxSize)
    (h4 : types4 ct = some c4) (h4a : c4.minSize ≤ adjustedLocalTotal volumes c4)
    (h4b : adjustedLocalTotal volumes c4 ≤ c4.maxSize) :
    localVolumeTotalSize volumes =
      ((volumes.filter fun p => p.2.volumeType = volumeTypeLSSD).map
        fun p => p.2.size).sum % U64 ∧
    validateLocalVolumeSizes none bytesFmt volumes ct = .ok () ∧
    validateLocalVolumeSizes (some types1) bytesFmt volumes ct = .ok () ∧
    validateLocalVolumeSizes (some types2) bytesFmt volumes ct =
      .error (.msg (ct ++ " total local volume size must be equal to " ++
        bytesFmt c2.minSize ++ ".")) ∧
    validateLocalVolumeSizes (some types3) bytesFmt volumes ct =
      .error (.msg (ct ++ " total local volume size must be between " ++
        bytesFmt c3.minSize ++ " and " ++ bytesFmt c3.maxSize ++ ".")) ∧
    validateLocalVolumeSizes (some types4) bytesFmt volumes ct = .ok () := by
  refine ⟨localVolumeTotalSize_eq_sum volumes, rfl, ?_, ?_, ?_, ?_⟩
  · simp [validateLocalVolumeSizes, h1]
  · rw [validateLocalVolumeSizes_eq types2 bytesFmt volumes ct c2 h2, if_pos h2b, if_pos h2a]
  · rw [validateLocalVolumeSizes_eq types3 bytesFmt volumes ct c3 h3, if_pos h3b, if_neg h3a]
  · rw [validateLocalVolumeSizes_eq types4 bytesFmt volumes ct c4 h4,
      if_neg (by push_neg; exact ⟨h4a, h4b⟩)]

/-- Witness for C4: a 20 GB local root volume against a listing failure, an
unknown type, an exact-size constraint, a range constraint, and a satisfied
constraint. -/
theorem validateLocalVolumeSizes_outcomes_witness :
    localVolumeTotalSize [("0", { volumeType := volumeTypeLSSD, size := 20000000000 })] =
      (([("0", ({ volumeType := volumeTypeLSSD, size := 20000000000 } : VolumeTemplate))].filter
        fun p => p.2.volumeType = volumeTypeLSSD).map fun p => p.2.size).sum % U64 ∧
    validateLocalVolumeSizes none itoa
      [("0", { volumeType := volumeTypeLSSD, size := 20000000000 })] "DEV1-S" = .ok () ∧
    validateLocalVolumeSizes (some fun _ => none) itoa
      [("0", { volumeType := volumeTypeLSSD, size := 20000000000 })] "DEV1-S" = .ok () ∧
    validateLocalVolumeSizes (some fun _ => some { minSize := 30000000000, maxSize := 30000000000 })
      itoa [("0", { volumeType := volumeTypeLSSD, size := 20000000000 })] "DEV1-S" =
      .error (.msg ("DEV1-S" ++ " total local volume size must be equal to " ++
        itoa 30000000000 ++ ".")) ∧
    validateLocalVolumeSizes (some fun _ => some { minSize := 30000000000, maxSize := 40000000000 })
      itoa [("0", { volumeType := volumeTypeLSSD, size := 20000000000 })] "DEV1-S" =
      .error (.msg ("DEV1-S" ++ " total local volume size must be between " ++
        itoa 30000000000 ++ " and " ++ itoa 40000000000 ++ ".")) ∧
    validateLocalVolumeSizes (some fun _ => some { minSize := 10000000000, maxSize := 25000000000 })
      itoa [("0", { volumeType := volumeTypeLSSD, size := 20000000000 })] "DEV1-S" = .ok () :=
  validateLocalVolumeSizes_outcomes
    [("0", { volumeType := volumeTypeLSSD, size := 20000000000 })] "DEV1-S" itoa
    (fun _ => none) (fun _ => some { minSize := 30000000000, maxSize := 30000000000 })
    (fun _ => some { minSize := 30000000000, maxSize := 40000000000 })
    (fun _ => some { minSize := 10000000000, maxSize := 25000000000 })
    { minSize := 30000000000, maxSize := 30000000000 }
    { minSize := 30000000000, maxSize := 40000000000 }
    { minSize := 10000000000, maxSize := 25000000000 }
    rfl rfl (by decide) (by decide) rfl (by decide) (by decide) rfl (by decide) (by decide)

/-- C10 counterexample: a volume map with no entry at key `"0"` on which the
check fails while the adjusted total is strictly below the minimum and not
above the maximum — the unsigned addition of the minimum wraps around
`2 ^ 64`, so the below-minimum branch is reachable. -/
theorem validateLocalVolumeSizes_below_min_reachable :
    (c10Volumes.lookup "0").isNone = true ∧
    adjustedLocalTotal c10Volumes c10Constraint < c10Constraint.minSize ∧
    ¬ adjustedLocalTotal c10Volumes c10Constraint > c10Constraint.maxSize ∧
    validateLocalVolumeSizes (some c10Types) itoa c10Volumes "DEV1-S" =
      .error (.msg ("DEV1-S total local volume size must be between " ++
        itoa c10Constraint.minSize ++ " and " ++ itoa c10Constraint.maxSize ++ ".")) := by
  decide

/-- C10 (amended): when no template occupies key `"0"` and the local total
plus the constraint's minimum does not overflow `uint64`, the below-minimum
failure is unreachable — a failure implies the adjusted total exceeds the
maximum and is at least the minimum. -/
theorem validateLocalVolumeSizes_no_root_below_min_unreachable
    (volumes : List (String × VolumeTemplate)) (types : String → Option VolumesConstraint)
    (bytesFmt : Nat → String) (ct : String) (c : VolumesConstraint)
    (hroot : (volumes.lookup "0").isNone = true)
    (hty : types ct = some c)
    (hnov : localVolumeTotalSize volumes + c.minSize < U64)
    (herr : validateLocalVolumeSizes (some types) bytesFmt volumes ct ≠ .ok ()) :
    c.minSize ≤ adjustedLocalTotal volumes c ∧
    adjustedLocalTotal volumes c > c.maxSize := by
  have hadj : adjustedLocalTotal volumes c = localVolumeTotalSize volumes + c.minSize := by
    simp [adjustedLocalTotal, hroot, Nat.mod_eq_of_lt hnov]
  have hmin : c.minSize ≤ adjustedLocalTotal volumes c := by omega
  refine ⟨hmin, ?_⟩
  rw [validateLocalVolumeSizes_eq types bytesFmt volumes ct c hty] at herr
  by_cases hcond : adjustedLocalTotal volumes c < c.minSize ∨
      adjustedLocalTotal volumes c > c.maxSize
  · rcases hcond with hlt | hgt
    · omega
    · exact hgt
  · rw [if_neg hcond] at herr
    exact absurd rfl herr

/-- Witness for the amended C10: a 30 GB local volume, no root entry, range
`[20 GB, 25 GB]` — the failure is an above-maximum failure. -/
theorem validateLocalVolumeSizes_no_root_below_min_unreachable_witness :
    ({ minSize := 20000000000, maxSize := 25000000000 } : VolumesConstraint).minSize ≤
      adjustedLocalTotal [("1", { volumeType := volumeTypeLSSD, size := 30000000000 })]
        { minSize := 20000000000, maxSize := 25000000000 } ∧
    adjustedLocalTotal [("1", { volumeType := volumeTypeLSSD, size := 30000000000 })]
      { minSize := 20000000000, maxSize := 25000000000 } >
      ({ minSize := 20000000000, maxSize := 25000000000 } : VolumesConstraint).maxSize :=
  validateLocalVolumeSizes_no_root_below_min_unreachable
    [("1", { volumeType := volumeTypeLSSD, size := 30000000000 })]
    (fun _ => some { minSize := 20000000000, maxSize := 25000000000 }) itoa "DEV1-S"
    { minSize := 20000000000, maxSize := 25000000000 }
    (by decide) rfl (by decide) (by decide)

/-- C5: a two-part descriptor with class token `l`/`local` (resp. `b`/`block`)
and a parseable size yields a new-volume template of that class and size; an
unrecognised class token fails with the invalid-type error; any valid class
token with an unparseable size fails with the invalid-size error; a one-part
UUID defers to `buildVolumeTemplateFromUUID`; every other string — a split
into one non-UUID part or into any number of parts other than one or two —
fails with the invalid-volume-format `CliError` carrying the three-form
hint. -/
theorem buildVolumeTemplate_outcomes
    (isUUID : String → Bool) (parseBytes : String → Option Nat)
    (getVolume : String → Option Volume) (orgID : String)
    (s1 s2 s3 s4 s5 s6 : String)
    (p1a p1b p2a p2b p3a p3b p4a p4b p5 : String) (ps6 : List String) (n1 n2 : Nat)
    (h1 : goSplitColon (goTrimSpace s1) = [p1a, p1b]) (h1a : p1a = "l" ∨ p1a = "local")
    (h1b : parseBytes p1b = some n1)
    (h2 : goSplitColon (goTrimSpace s2) = [p2a, p2b]) (h2a : p2a = "b" ∨ p2a = "block")
    (h2b : parseBytes p2b = some n2)
    (h3 : goSplitColon (goTrimSpace s3) = [p3a, p3b])
    (h3a : p3a ≠ "l") (h3b : p3a ≠ "local") (h3c : p3a ≠ "b") (h3d : p3a ≠ "block")
    (h4 : goSplitColon (goTrimSpace s4) = [p4a, p4b])
    (h4a : p4a = "l" ∨ p4a = "local" ∨ p4a = "b" ∨ p4a = "block")
    (h4b : parseBytes p4b = none)
    (h5 : goSplitColon (goTrimSpace s5) = [p5]) (h5a : isUUID p5 = true)
    (h6 : goSplitColon (goTrimSpace s6) = ps6)
    (h6a : ps6.length ≠ 2)
    (h6b : ps6.length = 1 → isUUID (ps6.getD 0 "") = false) :
    buildVolumeTemplate isUUID parseBytes getVolume orgID s1 =
      .ok { volumeType := volumeTypeLSSD, size := n1, organization := orgID } ∧
    buildVolumeTemplate isUUID parseBytes getVolume orgID s2 =
      .ok { volumeType := volumeTypeBSSD, size := n2, organization := orgID } ∧
    buildVolumeTemplate isUUID parseBytes getVolume orgID s3 =
      .error (.msg ("Invalid volume type " ++ p3a ++ " in " ++ s3 ++ " volume.")) ∧
    buildVolumeTemplate isUUID parseBytes getVolume orgID s4 =
      .error (.msg ("Invalid size format " ++ p4b ++ " in " ++ s4 ++ " volume.")) ∧
    buildVolumeTemplate isUUID parseBytes getVolume orgID s5 =
      buildVolumeTemplateFromUUID getVolume p5 ∧
    buildVolumeTemplate isUUID parseBytes getVolume orgID s6 =
      .error (.cli
        { err := "invalid volume format \'" ++ s6 ++ "\'", hint := volumeFormatHint }) := by
  refine ⟨?_, ?_, ?_, ?_, ?_, ?_⟩
  · rcases h1a with h | h <;> simp [buildVolumeTemplate, h1, h, h1b]
  · rcases h2a with h | h <;> simp [buildVolumeTemplate, h2, h, h2b]
  · simp [buildVolumeTemplate, h3, h3a, h3b, h3c, h3d]
  · rcases h4a with h | h | h | h <;> simp [buildVolumeTemplate, h4, h, h4b]
  · simp [buildVolumeTemplate, h5, h5a]
  · rcases ps6 with _ | ⟨a, _ | ⟨b, _ | ⟨c, rest⟩⟩⟩
    · simp [buildVolumeTemplate, h6]
    · have hu : isUUID a = false := h6b (by simp)
      simp [buildVolumeTemplate, h6, hu]
    · simp at h6a
    · simp [buildVolumeTemplate, h6]

/-- Witness for C5 at the six concrete descriptors `l:20GB`, `b:30GB`,
`x:20GB`, `l:nope`, a UUID and the three-part `l:20:GB`. -/
theorem buildVolumeTemplate_outcomes_witness :
    buildVolumeTemplate isUUIDW parseBytesW getVolumeW "org-1" "l:20GB" =
      .ok { volumeType := volumeTypeLSSD, size := 20000000000, organization := "org-1" } ∧
    buildVolumeTemplate isUUIDW parseBytesW getVolumeW "org-1" "b:30GB" =
      .ok { volumeType := volumeTypeBSSD, size := 30000000000, organization := "org-1" } ∧
    buildVolumeTemplate isUUIDW parseBytesW getVolumeW "org-1" "x:20GB" =
      .error (.msg ("Invalid volume type " ++ "x" ++ " in " ++ "x:20GB" ++ " volume.")) ∧
    buildVolumeTemplate isUUIDW parseBytesW getVolumeW "org-1" "l:nope" =
      .error (.msg ("Invalid size format " ++ "nope" ++ " in " ++ "l:nope" ++ " volume.")) ∧
    buildVolumeTemplate isUUIDW parseBytesW getVolumeW "org-1" uuidW =
      buildVolumeTemplateFromUUID getVolumeW uuidW ∧
    buildVolumeTemplate isUUIDW parseBytesW getVolumeW "org-1" "l:20:GB" =
      .error (.cli
        { err := "invalid volume format \'" ++ "l:20:GB" ++ "\'",
          hint := volumeFormatHint }) :=
  buildVolumeTemplate_outcomes isUUIDW parseBytesW getVolumeW "org-1"
    "l:20GB" "b:30GB" "x:20GB" "l:nope" uuidW "l:20:GB"
    "l" "20GB" "b" "30GB" "x" "20GB" "l" "nope" uuidW ["l", "20", "GB"]
    20000000000 30000000000
    (by decide) (Or.inl rfl) (by decide) (by decide) (Or.inl rfl) (by decide)
    (by decide) (by decide) (by decide) (by decide) (by decide) (by decide)
    (Or.inl rfl) (by decide) (by decide) (by decide) (by decide) (by decide) (by decide)

/-- C6: a failed volume lookup fails with the does-not-exist error; a found
volume already attached fails with the already-attached error naming the
owning server; otherwise the template carries the volume's ID, storage class
and size, with the name and organization fields left empty. -/
theorem buildVolumeTemplateFromUUID_outcomes (getVolume : String → Option Volume)
    (u1 u2 u3 : String) (vol2 vol3 : Volume) (srv : ServerSummary)
    (h1 : getVolume u1 = none)
    (h2 : getVolume u2 = some vol2) (h2a : vol2.server = some srv)
    (h3 : getVolume u3 = some vol3) (h3a : vol3.server = none) :
    buildVolumeTemplateFromUUID getVolume u1 =
      .error (.msg ("Volume " ++ u1 ++ " does not exist.")) ∧
    buildVolumeTemplateFromUUID getVolume u2 =
      .error (.msg ("Volume " ++ vol2.id ++ " is already attached to " ++
        srv.id ++ " server.")) ∧
    buildVolumeTemplateFromUUID getVolume u3 =
      .ok { id := vol3.id, volumeType := vol3.volumeType, size := vol3.size,
            name := "", organization := "" } := by
  refine ⟨?_, ?_, ?_⟩ <;> simp [buildVolumeTemplateFromUUID, h1, h2, h2a, h3, h3a]

/-- Witness for C6 against the concrete catalogue `getVolumeC6`. -/
theorem buildVolumeTemplateFromUUID_outcomes_witness :
    buildVolumeTemplateFromUUID getVolumeC6 uuid3W =
      .error (.msg ("Volume " ++ uuid3W ++ " does not exist.")) ∧
    buildVolumeTemplateFromUUID getVolumeC6 uuid2W =
      .error (.msg ("Volume " ++ uuid2W ++ " is already attached to " ++
        "srv-9" ++ " server.")) ∧
    buildVolumeTemplateFromUUID getVolumeC6 uuidW =
      .ok { id := uuidW, volumeType := volumeTypeBSSD, size := 10000000000,
            name := "", organization := "" } :=
  buildVolumeTemplateFromUUID_outcomes getVolumeC6 uuid3W uuid2W uuidW
    { id := uuid2W, volumeType := volumeTypeLSSD, size := 5000000000,
      server := some { id := "srv-9" } }
    { id := uuidW, volumeType := volumeTypeBSSD, size := 10000000000, server := none }
    { id := "srv-9" } (by decide) (by decide) rfl (by decide) rfl

/-- C7: the `ip` argument switch is total over the five documented forms —
empty/`new` request IP creation, a UUID is attached as-is, an IP literal is
resolved by reverse lookup (a failed lookup fails with the not-owned error),
`dynamic` requires a dynamic IP, `none` requests no public IP — and every
other string fails with the invalid-IP error naming the accepted forms. -/
theorem resolveIPArgument_outcomes
    (isUUID parsesAsIP : String → Bool) (getIP : String → Option String)
    (u a1 a2 bad ipID : String)
    (hu0 : u ≠ "") (hu1 : u ≠ "new") (hu : isUUID u = true)
    (ha10 : a1 ≠ "") (ha11 : a1 ≠ "new") (ha12 : isUUID a1 = false)
    (ha13 : parsesAsIP a1 = true) (ha14 : getIP a1 = none)
    (ha20 : a2 ≠ "") (ha21 : a2 ≠ "new") (ha22 : isUUID a2 = false)
    (ha23 : parsesAsIP a2 = true) (ha24 : getIP a2 = some ipID)
    (hd : isUUID "dynamic" = false) (hd2 : parsesAsIP "dynamic" = false)
    (hn : isUUID "none" = false) (hn2 : parsesAsIP "none" = false)
    (hb0 : bad ≠ "") (hb1 : bad ≠ "new") (hb2 : isUUID bad = false)
    (hb3 : parsesAsIP bad = false) (hb4 : bad ≠ "dynamic") (hb5 : bad ≠ "none") :
    resolveIPArgument isUUID parsesAsIP getIP "" = .createNew ∧
    resolveIPArgument isUUID parsesAsIP getIP "new" = .createNew ∧
    resolveIPArgument isUUID parsesAsIP getIP u = .attach u ∧
    resolveIPArgument isUUID parsesAsIP getIP a1 =
      .err (a1 ++ " does not belongs to you.") ∧
    resolveIPArgument isUUID parsesAsIP getIP a2 = .attach ipID ∧
    resolveIPArgument isUUID parsesAsIP getIP "dynamic" = .dynamic ∧
    resolveIPArgument isUUID parsesAsIP getIP "none" = .noPublicIP ∧
    resolveIPArgument isUUID parsesAsIP getIP bad = .err (invalidIPMsg bad) := by
  refine ⟨rfl, rfl, ?_, ?_, ?_, ?_, ?_, ?_⟩
  · simp [resolveIPArgument, hu0, hu1, hu]
  · simp [resolveIPArgument, ha10, ha11, ha12, ha13, ha14]
  · simp [resolveIPArgument, ha20, ha21, ha22, ha23, ha24]
  · simp [resolveIPArgument, hd, hd2]
  · simp [resolveIPArgument, hn, hn2]
  · simp [resolveIPArgument, hb0, hb1, hb2, hb3, hb4, hb5]

/-- Witness for C7 at concrete strings: the UUID `uuidW`, the unowned address
`1.2.3.4`, the owned address `5.6.7.8` (ID `ip-42`) and the sixth form
`garbage`. -/
theorem resolveIPArgument_outcomes_witness :
    resolveIPArgument isUUIDW parsesAsIPW getIPW "" = .createNew ∧
    resolveIPArgument isUUIDW parsesAsIPW getIPW "new" = .createNew ∧
    resolveIPArgument isUUIDW parsesAsIPW getIPW uuidW = .attach uuidW ∧
    resolveIPArgument isUUIDW parsesAsIPW getIPW "1.2.3.4" =
      .err ("1.2.3.4" ++ " does not belongs to you.") ∧
    resolveIPArgument isUUIDW parsesAsIPW getIPW "5.6.7.8" = .attach "ip-42" ∧
    resolveIPArgument isUUIDW parsesAsIPW getIPW "dynamic" = .dynamic ∧
    resolveIPArgument isUUIDW parsesAsIPW getIPW "none" = .noPublicIP ∧
    resolveIPArgument isUUIDW parsesAsIPW getIPW "garbage" = .err (invalidIPMsg "garbage") :=
  resolveIPArgument_outcomes isUUIDW parsesAsIPW getIPW uuidW "1.2.3.4" "5.6.7.8"
    "garbage" "ip-42"
    (by decide) (by decide) (by decide) (by decide) (by decide) (by decide) (by decide)
    (by decide) (by decide) (by decide) (by decide) (by decide) (by decide) (by decide)
    (by decide) (by decide) (by decide) (by decide) (by decide) (by decide) (by decide)
    (by decide) (by decide)

/-- Appending under a filter condition, starting from any accumulator, is
filtering and mapping. -/
theorem foldl_append_filter {α β : Type} (p : α → Bool) (f : α → β) (l : List α)
    (acc : List β) :
    l.foldl (fun a x => if p x then a ++ [f x] else a) acc = acc ++ (l.filter p).map f := by
  induction l generalizing acc with
  | nil => simp
  | cons x xs ih =>
    by_cases h : p x
    · simp [List.foldl_cons, h, ih, List.filter_cons]
    · simp [List.foldl_cons, h, ih, List.filter_cons]

/-- C9 counterexample: for the completion word `UBUNTU` and a catalogue
holding the label `UBUNTU_X`, a case-insensitive prefix match would return
the label, but the code's case-sensitive `strings.HasPrefix` against the
lower-cased word returns nothing. -/
theorem imageAutoComplete_not_case_insensitive :
    instanceServerCreateImageAutoCompleteFunc (some [{ label := "UBUNTU_X" }]) "UBUNTU" = [] ∧
    imageAutoCompleteCaseInsensitive (some [{ label := "UBUNTU_X" }]) "UBUNTU" =
      ["UBUNTU_X"] := by
  decide

/-- C9 (amended): the autocompleter lower-cases the completion word and maps
`-` to `_`, returns exactly the labels the transformed word is a
case-sensitive prefix of, and returns the empty list (never an error) when the
listing fails. -/
theorem imageAutoComplete_characterisation (images : List MarketplaceImage)
    (word : String) :
    instanceServerCreateImageAutoCompleteFunc none word = [] ∧
    instanceServerCreateImageAutoCompleteFunc (some images) word =
      (images.filter fun img =>
        (goToLower (goReplaceDashWithUnderscore word)).data.isPrefixOf img.label.data).map
        fun img => img.label := by
  refine ⟨rfl, ?_⟩
  simpa [instanceServerCreateImageAutoCompleteFunc] using
    foldl_append_filter
      (fun img : MarketplaceImage =>
        (goToLower (goReplaceDashWithUnderscore word)).data.isPrefixOf img.label.data)
      (fun img => img.label) images []

/-- `itoa` of a positive number never yields the digit list of zero: with at
least one unit of fuel the digit list is nonempty. -/
theorem itoaCore_ne_nil (fuel n : Nat) : itoaCore (fuel + 1) n ≠ [] := by
  rw [itoaCore]
  by_cases h : n < 10
  · simp [h]
  · simp [h]

/-- `strconv.Itoa` of a positive number is never the string `"0"`. -/
theorem itoa_succ_ne_zero (n : Nat) : itoa (n + 1) ≠ "0" := by
  intro hcontra
  have hdata : itoaCore (n + 1 + 1) (n + 1) = ['0'] := by
    have h2 : (String.mk (itoaCore (n + 1 + 1) (n + 1))).data = ("0" : String).data := by
      rw [itoa] at hcontra
      rw [hcontra]
    simpa using h2
  by_cases h : n + 1 < 10
  · have h9 : n < 9 := by omega
    rw [itoaCore, if_pos h] at hdata
    interval_cases n <;> exact absurd hdata (by decide)
  · rw [itoaCore, if_neg h] at hdata
    have hne : itoaCore (n + 1) ((n + 1) / 10) ≠ [] := itoaCore_ne_nil n ((n + 1) / 10)
    have hlen := congrArg List.length hdata
    simp at hlen
    exact hne hlen

/-- The keys produced by the additional-volumes loop started at position `k`
are `itoa (k + 1), itoa (k + 2), ...`, one per descriptor, in argument
order. -/
theorem buildAdditionalVolumes_keys (bvt : String → Res VolumeTemplate)
    (serverName : String) (l : List String) (k : Nat)
    (vols : List (String × VolumeTemplate))
    (h : buildAdditionalVolumes bvt serverName l k = .ok vols) :
    vols.map Prod.fst = (List.range l.length).map fun i => itoa (k + i + 1) := by
  induction l generalizing k vols with
  | nil =>
    rw [buildAdditionalVolumes] at h
    simp only [Res.ok.injEq] at h
    subst h
    simp
  | cons v rest ih =>
    cases hb : bvt v with
    | error e => rw [buildAdditionalVolumes, hb] at h; cases h
    | ok t =>
      cases hr : buildAdditionalVolumes bvt serverName rest (k + 1) with
      | error e => rw [buildAdditionalVolumes, hb, hr] at h; cases h
      | ok l2 =>
        rw [buildAdditionalVolumes, hb, hr] at h
        simp only [Res.ok.injEq] at h
        subst h
        have harith : ∀ m : Nat, k + 1 + m + 1 = k + (m + 1) + 1 := by omega
        simp [ih (k + 1) l2 hr, List.range_succ_eq_map, List.map_map, Function.comp,
          harith]

/-- The entry produced by the additional-volumes loop started at position `k`
for the descriptor at relative position `i`: key `itoa (k + i + 1)` and the
named (and, for an existing volume, stripped) template. -/
theorem buildAdditionalVolumes_entry (bvt : String → Res VolumeTemplate)
    (serverName : String) (l : List String) (k i : Nat)
    (vols : List (String × VolumeTemplate)) (s : String) (t : VolumeTemplate)
    (h : buildAdditionalVolumes bvt serverName l k = .ok vols)
    (hs : l[i]? = some s) (ht : bvt s = .ok t) :
    vols[i]? = some (itoa (k + i + 1), additionalVolumeEntry serverName (k + i + 1) t) := by
  induction l generalizing k i vols with
  | nil => simp at hs
  | cons v rest ih =>
    cases hb : bvt v with
    | error e => rw [buildAdditionalVolumes, hb] at h; cases h
    | ok t0 =>
      cases hr : buildAdditionalVolumes bvt serverName rest (k + 1) with
      | error e => rw [buildAdditionalVolumes, hb, hr] at h; cases h
      | ok l2 =>
        rw [buildAdditionalVolumes, hb, hr] at h
        simp only [Res.ok.injEq] at h
        subst h
        cases i with
        | zero =>
          simp only [List.getElem?_cons_zero, Option.some.injEq] at hs
          subst hs
          rw [hb] at ht
          simp only [Res.ok.injEq] at ht
          subst ht
          simp
        | succ m =>
          simp only [List.getElem?_cons_succ] at hs
          have harith : k + 1 + m + 1 = k + (m + 1) + 1 := by omega
          have := ih (k + 1) m l2 hr hs
          rw [harith] at this
          simpa using this

/-- When a root descriptor is present and parses, a successful `buildVolumes`
is the cleared root template at key `"0"` followed by the additional-volumes
entries. -/
theorem buildVolumes_root_cons (isUUID : String → Bool) (parseBytes : String → Option Nat)
    (getVolume : String → Option Volume) (orgID serverName rootVolume : String)
    (additional : List String) (vols : List (String × VolumeTemplate))
    (rt : VolumeTemplate)
    (hroot : rootVolume ≠ "")
    (hrt : buildVolumeTemplate isUUID parseBytes getVolume orgID rootVolume = .ok rt)
    (hb : buildVolumes isUUID parseBytes getVolume orgID serverName rootVolume
      additional = .ok vols) :
    ∃ rest, buildAdditionalVolumes (buildVolumeTemplate isUUID parseBytes getVolume orgID)
      serverName additional 0 = .ok rest ∧
      vols = ("0", { rt with organization := "" }) :: rest := by
  rw [buildVolumes] at hb
  rw [if_pos hroot, hrt] at hb
  cases hr : buildAdditionalVolumes (buildVolumeTemplate isUUID parseBytes getVolume orgID)
      serverName additional 0 with
  | error e => rw [hr] at hb; cases hb
  | ok rest =>
    rw [hr] at hb
    simp only [Res.ok.injEq, List.singleton_append] at hb
    exact ⟨rest, rfl, hb.symm⟩

/-- C8: in a built and sanitized volume map with a parsed root descriptor, the
keys are `"0"` followed by `"1", "2", ...` in argument order; a newly created
root volume of non-zero size is reduced to exactly `{size}`; an additional
volume referencing an existing volume is reduced to exactly `{id, name}` with
name `<serverName>-<index>`; a new additional volume keeps its name, storage
class, size and organization. -/
theorem volume_map_final_shape
    (isUUID : String → Bool) (parseBytes : String → Option Nat)
    (getVolume : String → Option Volume) (orgID serverName rootVolume : String)
    (additional : List String) (vols : List (String × VolumeTemplate))
    (rt te tn : VolumeTemplate) (i j : Nat) (si sj : String)
    (hroot : rootVolume ≠ "")
    (hb : buildVolumes isUUID parseBytes getVolume orgID serverName rootVolume
      additional = .ok vols)
    (hrt : buildVolumeTemplate isUUID parseBytes getVolume orgID rootVolume = .ok rt)
    (hrtid : rt.id = "") (hrtsz : rt.size ≠ 0)
    (hi : additional[i]? = some si)
    (hti : buildVolumeTemplate isUUID parseBytes getVolume orgID si = .ok te)
    (hteid : te.id ≠ "")
    (hj : additional[j]? = some sj)
    (htj : buildVolumeTemplate isUUID parseBytes getVolume orgID sj = .ok tn)
    (htnid : tn.id = "") :
    vols.map Prod.fst = "0" :: ((List.range additional.length).map fun m => itoa (m + 1)) ∧
    (sanitizeVolumeMap serverName vols)[0]? = some ("0", { size := rt.size }) ∧
    (sanitizeVolumeMap serverName vols)[i + 1]? =
      some (itoa (i + 1), { id := te.id, name := serverName ++ "-" ++ itoa (i + 1) }) ∧
    (sanitizeVolumeMap serverName vols)[j + 1]? =
      some (itoa (j + 1), { tn with name := serverName ++ "-" ++ itoa (j + 1) }) := by
  obtain ⟨rest, hr, hveq⟩ := buildVolumes_root_cons isUUID parseBytes getVolume orgID
    serverName rootVolume additional vols rt hroot hrt hb
  subst hveq
  have hzero : ∀ m : Nat, (0 : Nat) + m + 1 = m + 1 := by omega
  refine ⟨?_, ?_, ?_, ?_⟩
  · have hk := buildAdditionalVolumes_keys _ serverName additional 0 rest hr
    simp only [List.map_cons, hk, hzero]
  · simp [sanitizeVolumeMap, sanitizeVolumeTemplate, hrtid, hrtsz]
  · have he := buildAdditionalVolumes_entry _ serverName additional 0 i rest si te hr hi hti
    rw [hzero i] at he
    simp [sanitizeVolumeMap, he, additionalVolumeEntry, sanitizeVolumeTemplate, hteid]
  · have he := buildAdditionalVolumes_entry _ serverName additional 0 j rest sj tn hr hj htj
    rw [hzero j] at he
    simp [sanitizeVolumeMap, he, additionalVolumeEntry, sanitizeVolumeTemplate, htnid,
      itoa_succ_ne_zero j]

/-- Witness for C8: root `l:20GB`, additional volumes `[uuidW, "l:30GB"]`
(an existing volume then a new local volume), server name `srv`, and the
volume map `buildVolumes` produces for them. -/
theorem volume_map_final_shape_witness :
    ([("0", { volumeType := volumeTypeLSSD, size := 20000000000 }),
      ("1", { id := uuidW, name := "srv-1" }),
      ("2", { volumeType := volumeTypeLSSD, size := 30000000000, name := "srv-2",
              organization := "org-1" })] : List (String × VolumeTemplate)).map Prod.fst =
      "0" :: ((List.range ([uuidW, "l:30GB"] : List String).length).map
        fun m => itoa (m + 1)) ∧
    (sanitizeVolumeMap "srv"
      [("0", { volumeType := volumeTypeLSSD, size := 20000000000 }),
       ("1", { id := uuidW, name := "srv-1" }),
       ("2", { volumeType := volumeTypeLSSD, size := 30000000000, name := "srv-2",
               organization := "org-1" })])[0]? = some ("0", { size := 20000000000 }) ∧
    (sanitizeVolumeMap "srv"
      [("0", { volumeType := volumeTypeLSSD, size := 20000000000 }),
       ("1", { id := uuidW, name := "srv-1" }),
       ("2", { volumeType := volumeTypeLSSD, size := 30000000000, name := "srv-2",
               organization := "org-1" })])[0 + 1]? =
      some (itoa (0 + 1), { id := uuidW, name := "srv" ++ "-" ++ itoa (0 + 1) }) ∧
    (sanitizeVolumeMap "srv"
      [("0", { volumeType := volumeTypeLSSD, size := 20000000000 }),
       ("1", { id := uuidW, name := "srv-1" }),
       ("2", { volumeType := volumeTypeLSSD, size := 30000000000, name := "srv-2",
               organization := "org-1" })])[1 + 1]? =
      some (itoa (1 + 1),
        { ({ volumeType := volumeTypeLSSD, size := 30000000000,
             organization := "org-1" } : VolumeTemplate) with
          name := "srv" ++ "-" ++ itoa (1 + 1) }) :=
  volume_map_final_shape isUUIDW parseBytesW getVolumeW "org-1" "srv" "l:20GB"
    [uuidW, "l:30GB"]
    [("0", { volumeType := volumeTypeLSSD, size := 20000000000 }),
     ("1", { id := uuidW, name := "srv-1" }),
     ("2", { volumeType := volumeTypeLSSD, size := 30000000000, name := "srv-2",
             organization := "org-1" })]
    { volumeType := volumeTypeLSSD, size := 20000000000, organization := "org-1" }
    { id := uuidW, volumeType := volumeTypeBSSD, size := 10000000000 }
    { volumeType := volumeTypeLSSD, size := 30000000000, organization := "org-1" }
    0 1 uuidW "l:30GB"
    (by decide) (by decide) (by decide) (by decide) (by decide) (by decide) (by decide)
    (by decide) (by decide) (by decide) (by decide)

end Scw
